import Mathlib

/-!
Verification of the go-boilerplate repository: a layered scaffold with a
domain entity, a repository port (interface), a stub repository adapter,
a pass-through use case, and a zap-based logger wrapper.

Shallow embedding conventions:
* A Go `error` value is modelled as `Option Err` (`none` = `nil`).
* A Go slice is modelled as `GoSlice α := Option (List α)`: `none` is the
  nil slice, `some xs` a non-nil slice with elements `xs`.
* A Go multi-value return `(T, error)` becomes a Lean pair `T × Option Err`.
* Pointer receivers that may be nil become `Option`-typed receivers.
-/

/-- Go `error` values, abstracted by their message. -/
abbrev Err := String

/-- Go slice: `none` models the nil slice, `some xs` a non-nil slice. -/
abbrev GoSlice (α : Type) := Option (List α)

/-- Modelled from the spec: `entity.MyObject` is declared in
`internal/domain/entity`, which is not in the reviewed surface; the spec
calls it an opaque record and suggests a minimal placeholder of an
identifier plus a payload field, on whose contents no behavior depends. -/
structure MyObject where
  id : Int := 0
  name : String := ""
deriving DecidableEq, Repr

/-- The Go zero value `entity.MyObject{}` (all fields zero-valued). -/
def MyObject.zero : MyObject := {}

namespace ports

/-- Port interface `internal/ports/repository.MyObjectRepository`,
embedded as a record of the two operation implementations. -/
structure MyObjectRepository where
  GetAllObjects : GoSlice MyObject × Option Err
  GetObjectByID : Int → MyObject × Option Err

end ports

namespace adapters

/-- Adapter struct `internal/adapters/repository.MyObjectRepository`;
it has no fields. -/
structure MyObjectRepository where
deriving DecidableEq

/-- Constructor `NewMyObjectRepository` returns `&MyObjectRepository{}`. -/
def NewMyObjectRepository : MyObjectRepository := {}

/-- Adapter `GetAllObjects`: `return []entity.MyObject{}, nil`. -/
def MyObjectRepository.GetAllObjects (_r : MyObjectRepository) :
    GoSlice MyObject × Option Err :=
  (some [], none)

/-- Adapter `GetObjectByID`: `return entity.MyObject{}, nil`. -/
def MyObjectRepository.GetObjectByID (_r : MyObjectRepository) (_id : Int) :
    MyObject × Option Err :=
  ({}, none)

/-- The adapter viewed through the port interface. -/
def MyObjectRepository.asPort (r : MyObjectRepository) : ports.MyObjectRepository :=
  { GetAllObjects := r.GetAllObjects
    GetObjectByID := r.GetObjectByID }

end adapters

namespace usecases

/-- Struct `usecases.MyObjectUseCase`: holds the injected repository port. -/
structure MyObjectUseCase where
  myObjectRepo : ports.MyObjectRepository

/-- Constructor `NewMyObjectUseCase` injects the port. -/
def NewMyObjectUseCase (myObjectRepo : ports.MyObjectRepository) : MyObjectUseCase :=
  { myObjectRepo := myObjectRepo }

/-- Use case `GetAllObjects`:
`objects, err := repo.GetAllObjects(); if err != nil { return nil, err };
return objects, nil`. -/
def MyObjectUseCase.GetAllObjects (uc : MyObjectUseCase) :
    GoSlice MyObject × Option Err :=
  let r := uc.myObjectRepo.GetAllObjects
  match r.2 with
  | some e => (none, some e)
  | none => (r.1, none)

/-- Use case `GetObjectByID`:
`object, err := repo.GetObjectByID(id); if err != nil
{ return entity.MyObject{}, err }; return object, nil`. -/
def MyObjectUseCase.GetObjectByID (uc : MyObjectUseCase) (id : Int) :
    MyObject × Option Err :=
  let r := uc.myObjectRepo.GetObjectByID id
  match r.2 with
  | some e => (MyObject.zero, some e)
  | none => (r.1, none)

end usecases

namespace logger

/-- Model of `zapcore.Level` restricted to the six levels the wrapper recognizes. -/
inductive Level where
  | debug
  | info
  | warn
  | error
  | fatal
  | panic
deriving DecidableEq, Repr

/-- The zap numeric severity order (`DPanicLevel` is unused here and skipped):
Debug < Info < Warn < Error < Panic < Fatal. -/
def Level.severity : Level → Nat
  | .debug => 0
  | .info => 1
  | .warn => 2
  | .error => 3
  | .panic => 5
  | .fatal => 6

/-- Rendering of the six recognized levels, as `zapcore.Level.String()` prints them. -/
def Level.name : Level → String
  | .debug => "debug"
  | .info => "info"
  | .warn => "warn"
  | .error => "error"
  | .fatal => "fatal"
  | .panic => "panic"

/-- A zap core at level `core` writes a record logged at level `lvl`
exactly when `lvl` is at least `core`. -/
def levelEnabled (core lvl : Level) : Bool :=
  core.severity ≤ lvl.severity

/-- The two encoder choices of `NewLogger`: console (development,
human-readable colorized output) or JSON (production, structured fields).
The encoder configuration details (field names, time format) are
abstracted away; no claim depends on them. -/
inductive Encoding where
  | console
  | json
deriving DecidableEq, Repr

/-- Model of `zapcore.WriteSyncer`: an output sink, abstracted by an identifier and
the error its flush reports. `stdout` is sink 0 whose flush succeeds. -/
structure WriteSyncer where
  sinkId : Nat := 0
  syncResult : Option Err := none
deriving DecidableEq, Repr

/-- The default sink `zapcore.AddSync(os.Stdout)`. -/
def stdout : WriteSyncer := {}

/-- Struct `logger.Config`: construction-time options of the wrapper. -/
structure Config where
  IsDevelopment : Bool := false
  Output : Option WriteSyncer := none
  CallerSkip : Int := 0
deriving DecidableEq, Repr

/-- The environment variables `NewLogger` reads; the Go function `os.Getenv` returns
the empty string for an absent variable. -/
structure Env where
  LOG_LEVEL : String := ""
  DEV_MODE : String := ""
deriving DecidableEq, Repr

/-- The configured `zap.Logger`: the core level, encoder and sink, plus
the caller/stacktrace options passed to `zap.New`. -/
structure ZapLogger where
  level : Level
  encoding : Encoding
  output : WriteSyncer
  callerSkip : Int
  stacktraceLevel : Level := .error
deriving DecidableEq, Repr

/-- Model of `zap.SugaredLogger`: `zapLogger.Sugar()` wraps the base logger. -/
structure SugaredLogger where
  base : ZapLogger
deriving DecidableEq, Repr

/-- Struct `logger.Logger`: the wrapper struct; both fields are pointers in Go,
so each is `Option`-typed (`none` = nil field). -/
structure Logger where
  zap : Option ZapLogger
  sugar : Option SugaredLogger
deriving DecidableEq, Repr

/-- Model of `strings.ToLower`, restricted to the ASCII case mapping:
every value the wrapper compares against ("debug" … "panic", "true") is
ASCII, where the two functions agree. -/
def goToLower (s : String) : String :=
  String.mk (s.data.map Char.toLower)

/-- The switch on `strings.ToLower(os.Getenv("LOG_LEVEL"))` in
`NewLogger`: returns the resolved level and whether the default branch
printed its warning directly to standard output via `fmt.Printf`. -/
def resolveLogLevel (envLogLevel : String) : Level × Bool :=
  match goToLower envLogLevel with
  | "debug" => (.debug, false)
  | "info" => (.info, false)
  | "warn" => (.warn, false)
  | "error" => (.error, false)
  | "fatal" => (.fatal, false)
  | "panic" => (.panic, false)
  | _ => (.info, true)

/-- The development-mode block of `NewLogger`: `cfg.IsDevelopment`, and if
that is false, `strings.ToLower(os.Getenv("DEV_MODE")) == "true"`. -/
def resolveDevMode (cfg : Config) (env : Env) : Bool :=
  let isDevelopmentMode := cfg.IsDevelopment
  if !isDevelopmentMode then
    goToLower env.DEV_MODE == "true"
  else
    isDevelopmentMode

/-- What `NewLogger` produces: the constructed wrapper, the (always nil)
error, whether the level warning went to stdout, and the three startup
log calls made through the sugared logger, each with its level and
message (`Debugf("Log level: %s", logLevel)` formats the level name). -/
structure NewLoggerResult where
  logger : Logger
  err : Option Err
  stdoutWarning : Bool
  startupLogCalls : List (Level × String)
deriving DecidableEq, Repr

/-- Function `logger.NewLogger(cfg)`, with the process environment passed
explicitly. Mirrors the source order: resolve the level, the development
mode, the sink, the encoder, the caller skip; build the core and the
wrapper; then make the three startup logging calls. -/
def NewLogger (cfg : Config) (env : Env) : NewLoggerResult :=
  let resolved := resolveLogLevel env.LOG_LEVEL
  let logLevel := resolved.1
  let isDevelopmentMode := resolveDevMode cfg env
  let output := match cfg.Output with
    | some o => o
    | none => stdout
  let encoding := if isDevelopmentMode then Encoding.console else Encoding.json
  let callerSkip := if cfg.CallerSkip ≤ 0 then 1 else cfg.CallerSkip
  let zapLogger : ZapLogger :=
    { level := logLevel, encoding := encoding, output := output
      callerSkip := callerSkip }
  let l : Logger := { zap := some zapLogger, sugar := some { base := zapLogger } }
  { logger := l
    err := none
    stdoutWarning := resolved.2
    startupLogCalls :=
      [(Level.info, "Logger successfully initialized."),
       (Level.debug,
        if isDevelopmentMode then "Development mode ENABLED (console output)."
        else "Production mode ENABLED (JSON output)."),
       (Level.debug, "Log level: " ++ logLevel.name)] }

/-- The startup log lines the core actually writes: the calls whose level
the configured core level enables. -/
def NewLoggerResult.emittedStartupLines (r : NewLoggerResult) : Nat :=
  match r.logger.zap with
  | none => 0
  | some z => (r.startupLogCalls.filter (fun c => levelEnabled z.level c.1)).length

/-- The encoding of the wrapper core, when it has one. -/
def loggerEncoding (l : Logger) : Option Encoding :=
  l.zap.map ZapLogger.encoding

/-- The level of the wrapper core, when it has one. -/
def loggerLevel (l : Logger) : Option Level :=
  l.zap.map ZapLogger.level

/-- The observable effect of one wrapper method call. `noop` is the
guarded early return (no output, no error raised); `logCall lvl` is a
delegation to the sugared logger at `lvl`; `logCallExit`/`logCallPanic`
additionally terminate the process / raise a panic, per the zap
Fatal/Panic contract (stated in the wrapper doc comments: Fatal
logs then calls `os.Exit(1)`, Panic logs then panics); `synced` is a
flush of the underlying core. -/
inductive MethodEffect where
  | noop
  | logCall (lvl : Level)
  | logCallExit (lvl : Level)
  | logCallPanic (lvl : Level)
  | synced
deriving DecidableEq, Repr

/-- The arguments of a variadic `...interface{}` call, abstracted. -/
abbrev Args := List String

/-- Method `Logger.Sync`: `if l == nil || l.zap == nil { return nil };
return l.zap.Sync()`. Returns the Go error and the effect. -/
def Logger.Sync (l : Option Logger) : Option Err × MethodEffect :=
  match l with
  | none => (none, .noop)
  | some lg =>
    match lg.zap with
    | none => (none, .noop)
    | some z => (z.output.syncResult, .synced)

/-- The shared shape of the eight guarded leveled methods:
`if l == nil || l.sugar == nil { return }` then delegate to the sugared
logger at the given level with terminal effect `eff`. -/
def guardedCall (l : Option Logger) (eff : MethodEffect) : MethodEffect :=
  match l with
  | none => .noop
  | some lg =>
    match lg.sugar with
    | none => .noop
    | some _ => eff

/-- Method `Logger.Debug`. -/
def Logger.Debug (l : Option Logger) (_args : Args) : MethodEffect :=
  guardedCall l (.logCall .debug)

/-- Method `Logger.Debugf`. -/
def Logger.Debugf (l : Option Logger) (_template : String) (_args : Args) :
    MethodEffect :=
  guardedCall l (.logCall .debug)

/-- Method `Logger.Info`. -/
def Logger.Info (l : Option Logger) (_args : Args) : MethodEffect :=
  guardedCall l (.logCall .info)

/-- Method `Logger.Infof`. -/
def Logger.Infof (l : Option Logger) (_template : String) (_args : Args) :
    MethodEffect :=
  guardedCall l (.logCall .info)

/-- Method `Logger.Warn`. -/
def Logger.Warn (l : Option Logger) (_args : Args) : MethodEffect :=
  guardedCall l (.logCall .warn)

/-- Method `Logger.Warnf`. -/
def Logger.Warnf (l : Option Logger) (_template : String) (_args : Args) :
    MethodEffect :=
  guardedCall l (.logCall .warn)

/-- Method `Logger.Error`. -/
def Logger.Error (l : Option Logger) (_args : Args) : MethodEffect :=
  guardedCall l (.logCall .error)

/-- Method `Logger.Errorf`. -/
def Logger.Errorf (l : Option Logger) (_template : String) (_args : Args) :
    MethodEffect :=
  guardedCall l (.logCall .error)

/-- Method `Logger.Fatal`: guarded, then logs at fatal level and calls
`os.Exit(1)` (the zap fatal contract). -/
def Logger.Fatal (l : Option Logger) (_args : Args) : MethodEffect :=
  guardedCall l (.logCallExit .fatal)

/-- Method `Logger.Fatalf`. -/
def Logger.Fatalf (l : Option Logger) (_template : String) (_args : Args) :
    MethodEffect :=
  guardedCall l (.logCallExit .fatal)

/-- Method `Logger.Panic`: guarded, then logs at panic level and panics. -/
def Logger.Panic (l : Option Logger) (_args : Args) : MethodEffect :=
  guardedCall l (.logCallPanic .panic)

/-- Method `Logger.Panicf`. -/
def Logger.Panicf (l : Option Logger) (_template : String) (_args : Args) :
    MethodEffect :=
  guardedCall l (.logCallPanic .panic)

/-- The spec-side table of recognized LOG_LEVEL names. -/
def recognizedLevels : List (String × Level) :=
  [("debug", .debug), ("info", .info), ("warn", .warn),
   ("error", .error), ("fatal", .fatal), ("panic", .panic)]

end logger

/-- Claim C1: for every injected port and every input, the use case methods
GetAllObjects/GetObjectByID delegate purely: on success (nil error from
the port) the port result is returned unchanged, and in every case the
error component is propagated to the caller unchanged, with no wrapping. -/
theorem useCase_pure_delegation (port : ports.MyObjectRepository) (id : Int) :
    (port.GetAllObjects.2 = none →
      (usecases.NewMyObjectUseCase port).GetAllObjects = port.GetAllObjects)
    ∧ (usecases.NewMyObjectUseCase port).GetAllObjects.2 = port.GetAllObjects.2
    ∧ ((port.GetObjectByID id).2 = none →
      (usecases.NewMyObjectUseCase port).GetObjectByID id = port.GetObjectByID id)
    ∧ ((usecases.NewMyObjectUseCase port).GetObjectByID id).2
        = (port.GetObjectByID id).2 := by
  unfold usecases.NewMyObjectUseCase usecases.MyObjectUseCase.GetAllObjects
    usecases.MyObjectUseCase.GetObjectByID
  rcases hga : port.GetAllObjects with ⟨v, e⟩
  rcases hgb : port.GetObjectByID id with ⟨w, f⟩
  cases e <;> cases f <;> simp

/-- Witness for C1: the theorem applied to the stub adapter port at a
concrete id, with both success hypotheses discharged. -/
theorem useCase_pure_delegation_witness :
    (usecases.NewMyObjectUseCase adapters.NewMyObjectRepository.asPort).GetAllObjects
      = adapters.NewMyObjectRepository.asPort.GetAllObjects
    ∧ (usecases.NewMyObjectUseCase adapters.NewMyObjectRepository.asPort).GetObjectByID 7
      = adapters.NewMyObjectRepository.asPort.GetObjectByID 7 := by
  have h := useCase_pure_delegation adapters.NewMyObjectRepository.asPort 7
  exact ⟨h.1 rfl, h.2.2.1 rfl⟩

/-- Claim C6: whenever the injected port returns a non-nil error, the use
case discards the value the port paired with it: GetAllObjects returns the
nil slice with that error, and GetObjectByID returns the zero-valued
entity with that error, whatever value the port returned. -/
theorem useCase_discards_value_on_error (port : ports.MyObjectRepository)
    (id : Int) (e : Err) :
    (port.GetAllObjects.2 = some e →
      (usecases.NewMyObjectUseCase port).GetAllObjects = (none, some e))
    ∧ ((port.GetObjectByID id).2 = some e →
      (usecases.NewMyObjectUseCase port).GetObjectByID id = (MyObject.zero, some e)) := by
  unfold usecases.NewMyObjectUseCase usecases.MyObjectUseCase.GetAllObjects
    usecases.MyObjectUseCase.GetObjectByID
  rcases hga : port.GetAllObjects with ⟨v, f⟩
  rcases hgb : port.GetObjectByID id with ⟨w, g⟩
  constructor
  · intro h
    simp at h
    simp [h]
  · intro h
    simp at h
    simp [h]

/-- Witness for C6: a failing port that pairs non-trivial values with its
errors; the use case drops them. -/
theorem useCase_discards_value_on_error_witness :
    (usecases.NewMyObjectUseCase
      { GetAllObjects := (some [{ id := 1, name := "x" }], some "boom")
        GetObjectByID := fun _ => ({ id := 2, name := "y" }, some "crash") }).GetAllObjects
      = (none, some "boom")
    ∧ (usecases.NewMyObjectUseCase
      { GetAllObjects := (some [{ id := 1, name := "x" }], some "boom")
        GetObjectByID := fun _ => ({ id := 2, name := "y" }, some "crash") }).GetObjectByID 0
      = (MyObject.zero, some "crash") := by
  have h := useCase_discards_value_on_error
    { GetAllObjects := (some [{ id := 1, name := "x" }], some "boom")
      GetObjectByID := fun _ => ({ id := 2, name := "y" }, some "crash") } 0 "boom"
  have h2 := useCase_discards_value_on_error
    { GetAllObjects := (some [{ id := 1, name := "x" }], some "boom")
      GetObjectByID := fun _ => ({ id := 2, name := "y" }, some "crash") } 0 "crash"
  exact ⟨h.1 rfl, h2.2 rfl⟩

/-- Claim C9: for every adapter state, the adapter GetAllObjects returns
an empty (non-nil) slice and no error. The embedding is a pure function of
the (fieldless) adapter value, so repeated calls agree and no state changes. -/
theorem adapter_getAllObjects_empty (r : adapters.MyObjectRepository) :
    r.GetAllObjects = (some ([] : List MyObject), none) := rfl

/-- Claim C10: for every id representable as a Go int64 — including zero,
negatives, and the maximum — the adapter GetObjectByID returns the
zero-valued entity and no error. -/
theorem adapter_getObjectByID_zero (r : adapters.MyObjectRepository) (id : Int)
    (hlo : -(2 ^ 63) ≤ id) (hhi : id < 2 ^ 63) :
    r.GetObjectByID id = (MyObject.zero, none) := rfl

/-- Witness for C10: evaluated at zero, the minimum, and the maximum
representable int64. -/
theorem adapter_getObjectByID_zero_witness :
    adapters.NewMyObjectRepository.GetObjectByID 0 = (MyObject.zero, none)
    ∧ adapters.NewMyObjectRepository.GetObjectByID (-(2 ^ 63)) = (MyObject.zero, none)
    ∧ adapters.NewMyObjectRepository.GetObjectByID (2 ^ 63 - 1) = (MyObject.zero, none) := by
  refine ⟨adapter_getObjectByID_zero _ 0 (by norm_num) (by norm_num),
    adapter_getObjectByID_zero _ (-(2 ^ 63)) (by norm_num) (by norm_num),
    adapter_getObjectByID_zero _ (2 ^ 63 - 1) (by norm_num) (by norm_num)⟩

/-- Helper: the LOG_LEVEL switch agrees with a lookup in the table of
recognized names after lowercasing, defaulting to info with a warning. -/
theorem resolveLogLevel_lookup (s : String) :
    logger.resolveLogLevel s
      = ((logger.recognizedLevels.lookup (logger.goToLower s)).getD logger.Level.info,
         (logger.recognizedLevels.lookup (logger.goToLower s)).isNone) := by
  unfold logger.resolveLogLevel logger.recognizedLevels
  split <;> try (simp_all [List.lookup])
  next h1 h2 h3 h4 h5 h6 =>
    have e1 : (logger.goToLower s == "debug") = false := beq_eq_false_iff_ne.mpr h1
    have e2 : (logger.goToLower s == "info") = false := beq_eq_false_iff_ne.mpr h2
    have e3 : (logger.goToLower s == "warn") = false := beq_eq_false_iff_ne.mpr h3
    have e4 : (logger.goToLower s == "error") = false := beq_eq_false_iff_ne.mpr h4
    have e5 : (logger.goToLower s == "fatal") = false := beq_eq_false_iff_ne.mpr h5
    have e6 : (logger.goToLower s == "panic") = false := beq_eq_false_iff_ne.mpr h6
    simp [List.lookup, e1, e2, e3, e4, e5, e6]

/-- Claim C5: for every configuration input, the logger level is resolved
from LOG_LEVEL by case-insensitive matching against the table
{debug, info, warn, error, fatal, panic}; an absent or unrecognized value
resolves to info, and exactly then a warning is printed to stdout. -/
theorem log_level_resolution (cfg : logger.Config) (env : logger.Env) :
    logger.loggerLevel (logger.NewLogger cfg env).logger
      = some ((logger.recognizedLevels.lookup (logger.goToLower env.LOG_LEVEL)).getD
          logger.Level.info)
    ∧ (logger.NewLogger cfg env).stdoutWarning
      = (logger.recognizedLevels.lookup (logger.goToLower env.LOG_LEVEL)).isNone := by
  unfold logger.NewLogger logger.loggerLevel
  rw [resolveLogLevel_lookup]
  simp

/-- Claim C4: DEV_MODE equal to "true" case-insensitively with the
development flag unset yields console encoding, and an explicitly true
development flag yields console encoding whatever the environment says. -/
theorem dev_mode_console_encoding (cfg : logger.Config) (env : logger.Env) :
    (logger.goToLower env.DEV_MODE = "true" → cfg.IsDevelopment = false →
      logger.loggerEncoding (logger.NewLogger cfg env).logger
        = some logger.Encoding.console)
    ∧ (cfg.IsDevelopment = true →
      logger.loggerEncoding (logger.NewLogger cfg env).logger
        = some logger.Encoding.console) := by
  unfold logger.NewLogger logger.loggerEncoding logger.resolveDevMode
  constructor
  · intro h hdev
    simp [h, hdev]
  · intro h
    simp [h]

/-- Witness for C4: an uppercase environment value with an unset flag, and
an explicitly true flag with an empty environment. -/
theorem dev_mode_console_encoding_witness :
    logger.loggerEncoding
        (logger.NewLogger {} { DEV_MODE := "TRUE" }).logger
      = some logger.Encoding.console
    ∧ logger.loggerEncoding
        (logger.NewLogger { IsDevelopment := true } {}).logger
      = some logger.Encoding.console := by
  refine ⟨(dev_mode_console_encoding {} { DEV_MODE := "TRUE" }).1 ?_ rfl,
    (dev_mode_console_encoding { IsDevelopment := true } {}).2 rfl⟩
  decide

/-- Counterexample to C3: with the default configuration and
LOG_LEVEL=info, construction makes three startup log calls and the core
emits exactly one line (the info line; the two debug lines are below the
level), so the count is not two — in fact no input ever yields two. -/
theorem startup_lines_not_two_counterexample :
    (logger.NewLogger {} { LOG_LEVEL := "info" }).startupLogCalls.length = 3
    ∧ (logger.NewLogger {} { LOG_LEVEL := "info" }).emittedStartupLines = 1
    ∧ ¬ (logger.NewLogger {} { LOG_LEVEL := "info" }).emittedStartupLines = 2 := by
  refine ⟨rfl, rfl, ?_⟩
  decide

/-- Claim C3 as amended: on successful construction the logger makes
three startup log calls — one info line confirming initialization and two
debug lines reporting the active mode and the level — and the number of
lines actually emitted is three when the resolved level is debug, one
when it is info, and zero otherwise. -/
theorem startup_lines_three_calls_amended (cfg : logger.Config) (env : logger.Env) :
    (logger.NewLogger cfg env).startupLogCalls.map Prod.fst
      = [logger.Level.info, logger.Level.debug, logger.Level.debug]
    ∧ (logger.NewLogger cfg env).emittedStartupLines
      = (match (logger.resolveLogLevel env.LOG_LEVEL).1 with
         | .debug => 3
         | .info => 1
         | _ => 0) := by
  unfold logger.NewLogger logger.NewLoggerResult.emittedStartupLines
  constructor
  · simp
  · cases h : (logger.resolveLogLevel env.LOG_LEVEL).1 <;>
      simp [h, logger.levelEnabled, logger.Level.severity]

/-- Counterexample to C2: on a nil logger instance the fatal and panic
variants hit the same nil guard as every other method and return without
logging, terminating, or panicking — they are no-ops, not the underlying
facility terminal actions. -/
theorem fatal_panic_nil_noop_counterexample :
    logger.Logger.Fatal none ["boom"] = logger.MethodEffect.noop
    ∧ logger.Logger.Panic none ["boom"] = logger.MethodEffect.noop
    ∧ logger.Logger.Fatal none ["boom"]
        ≠ logger.MethodEffect.logCallExit logger.Level.fatal
    ∧ logger.Logger.Panic none ["boom"]
        ≠ logger.MethodEffect.logCallPanic logger.Level.panic := by
  refine ⟨rfl, rfl, ?_, ?_⟩ <;> decide

/-- Claim C2 as amended: on a nil logger instance the fatal and panic
variants are guarded no-ops exactly like the other leveled methods; only
on an instance with a live sugared logger do they log and then terminate
the process (fatal) or raise a panic (panic). -/
theorem fatal_panic_nil_guarded_amended (args : logger.Args) (tmpl : String)
    (z : logger.ZapLogger) (s : logger.SugaredLogger) :
    logger.Logger.Fatal none args = logger.MethodEffect.noop
    ∧ logger.Logger.Fatalf none tmpl args = logger.MethodEffect.noop
    ∧ logger.Logger.Panic none args = logger.MethodEffect.noop
    ∧ logger.Logger.Panicf none tmpl args = logger.MethodEffect.noop
    ∧ logger.Logger.Fatal (some { zap := some z, sugar := some s }) args
        = logger.MethodEffect.logCallExit logger.Level.fatal
    ∧ logger.Logger.Panic (some { zap := some z, sugar := some s }) args
        = logger.MethodEffect.logCallPanic logger.Level.panic :=
  ⟨rfl, rfl, rfl, rfl, rfl, rfl⟩

/-- Claim C7: for every argument list and template, the debug, info, warn
and error methods (plain and format forms) on a nil or uninitialized
logger instance return without raising and produce no output. -/
theorem nil_logger_methods_noop (r : Option logger.Logger) (args : logger.Args)
    (tmpl : String)
    (h : r = none ∨ r = some { zap := none, sugar := none }) :
    logger.Logger.Debug r args = logger.MethodEffect.noop
    ∧ logger.Logger.Debugf r tmpl args = logger.MethodEffect.noop
    ∧ logger.Logger.Info r args = logger.MethodEffect.noop
    ∧ logger.Logger.Infof r tmpl args = logger.MethodEffect.noop
    ∧ logger.Logger.Warn r args = logger.MethodEffect.noop
    ∧ logger.Logger.Warnf r tmpl args = logger.MethodEffect.noop
    ∧ logger.Logger.Error r args = logger.MethodEffect.noop
    ∧ logger.Logger.Errorf r tmpl args = logger.MethodEffect.noop := by
  rcases h with h | h <;> subst h <;>
    exact ⟨rfl, rfl, rfl, rfl, rfl, rfl, rfl, rfl⟩

/-- Witness for C7: the nil receiver with concrete arguments. -/
theorem nil_logger_methods_noop_witness :
    logger.Logger.Debug none ["x"] = logger.MethodEffect.noop
    ∧ logger.Logger.Debugf none "t" ["x"] = logger.MethodEffect.noop
    ∧ logger.Logger.Info none ["x"] = logger.MethodEffect.noop
    ∧ logger.Logger.Infof none "t" ["x"] = logger.MethodEffect.noop
    ∧ logger.Logger.Warn none ["x"] = logger.MethodEffect.noop
    ∧ logger.Logger.Warnf none "t" ["x"] = logger.MethodEffect.noop
    ∧ logger.Logger.Error none ["x"] = logger.MethodEffect.noop
    ∧ logger.Logger.Errorf none "t" ["x"] = logger.MethodEffect.noop :=
  nil_logger_methods_noop none ["x"] "t" (Or.inl rfl)

/-- Claim C8: Sync on a nil logger instance, or on one whose core pointer
is nil, returns a nil error and performs no action. -/
theorem nil_logger_sync_ok :
    logger.Logger.Sync none = (none, logger.MethodEffect.noop)
    ∧ logger.Logger.Sync (some { zap := none, sugar := none })
      = (none, logger.MethodEffect.noop) :=
  ⟨rfl, rfl⟩
